import Mathlib

/-!
Shallow embedding of the `input-timing` MIDI input subsystem
(`src/midi.rs`, `src/midi_input_handler.rs`).

The Rust `HashMap<u8, MidiInputDataRaw>` buffers are modelled as association
lists `List (Nat × MidiInputDataRaw)` whose keys are unique in every reachable
state; `HashMap::insert` becomes `hmInsert` (overwrite-in-place or append) and
`HashMap::get` becomes `hmLookup`.  Iteration order of a `HashMap` is
unspecified, so an iteration of the Rust map is modelled as iteration of the
association list in list order.  `u8`/`u64`/`u128` values are modelled as
`Nat`; fallible operations (slice indexing, `usize` subtraction) return
`Option`.
-/

set_option autoImplicit false

/-- `MidiInputDataRaw` from `src/midi.rs`: the most recently observed raw
message for a note number. -/
structure MidiInputDataRaw where
  note_number : Nat
  timestamp : Nat
  non_midi_timestamp_ms : Nat
  status : Nat
  note_velocity : Nat
deriving DecidableEq

/-- `MidiInputDataRaw::is_note_on` from `src/midi.rs`:
`self.status >= 144 && self.status <= 159`. -/
def MidiInputDataRaw.is_note_on (d : MidiInputDataRaw) : Bool :=
  144 ≤ d.status && d.status ≤ 159

/-- `HashMap::insert`: overwrite the entry with this key if present, otherwise
add a new entry. -/
def hmInsert (k : Nat) (v : MidiInputDataRaw) :
    List (Nat × MidiInputDataRaw) → List (Nat × MidiInputDataRaw)
  | [] => [(k, v)]
  | (k', v') :: rest => if k' = k then (k, v) :: rest else (k', v') :: hmInsert k v rest

/-- `HashMap::get`: the value stored under a key, if any. -/
def hmLookup (k : Nat) : List (Nat × MidiInputDataRaw) → Option MidiInputDataRaw
  | [] => none
  | (k', v') :: rest => if k' = k then some v' else hmLookup k rest

/-- The state of `MidiInput` from `src/midi.rs` that the algorithms read and
write: the device name and the two mutex-guarded buffers (the port handle and
connection handle carry no algorithmic state and are omitted). -/
structure MidiInput where
  device_name : String
  raw_inputs : List (Nat × MidiInputDataRaw)
  previous_raw_inputs : List (Nat × MidiInputDataRaw)
deriving DecidableEq

/-- The loop body of `MidiInput::get_pressed_buttons`: scan the entries and
push every `is_note_on` value, in iteration order. -/
def get_pressed_loop : List (Nat × MidiInputDataRaw) → List MidiInputDataRaw
  | [] => []
  | (_, raw_input) :: rest =>
      if raw_input.is_note_on then raw_input :: get_pressed_loop rest
      else get_pressed_loop rest

/-- `MidiInput::get_pressed_buttons` from `src/midi.rs`.  The Rust function
takes `&self` and only reads `raw_inputs` (the `iter_mut` never writes), so
the returned state equals the input state. -/
def MidiInput.get_pressed_buttons (m : MidiInput) : List MidiInputDataRaw × MidiInput :=
  (get_pressed_loop m.raw_inputs, m)

/-- The loop of `MidiInput::flush`: for each `(id, raw_input)` of `raw_inputs`,
overwrite `previous_raw_inputs[id]` if present, else insert it. -/
def flushLoop : List (Nat × MidiInputDataRaw) → List (Nat × MidiInputDataRaw) →
    List (Nat × MidiInputDataRaw)
  | prev, [] => prev
  | prev, (id, raw_input) :: rest => flushLoop (hmInsert id raw_input prev) rest

/-- `MidiInput::flush` from `src/midi.rs`: store the latest values as previous,
then clear `raw_inputs`. -/
def MidiInput.flush (m : MidiInput) : MidiInput :=
  { m with
    raw_inputs := [],
    previous_raw_inputs := flushLoop m.previous_raw_inputs m.raw_inputs }

/-- `Instrument` from `src/midi_input_handler.rs`. -/
inductive Instrument where
  | ClosedHihat
  | Snare
  | Kick
  | OpenHihat
  | PedalHiHat
  | Ride
  | Tom1
  | Tom2
  | Tom3
  | Crash
deriving DecidableEq

/-- `ALL_INSTRUMENTS` from `src/midi_input_handler.rs`, in source order. -/
def ALL_INSTRUMENTS : List Instrument :=
  [Instrument.Crash, Instrument.Ride, Instrument.OpenHihat, Instrument.ClosedHihat,
   Instrument.Tom1, Instrument.Tom2, Instrument.Tom3, Instrument.Snare,
   Instrument.Kick, Instrument.PedalHiHat]

/-- `UserHit` from `src/midi_input_handler.rs`. -/
structure UserHit where
  instrument : Instrument
  raw_data : MidiInputDataRaw
deriving DecidableEq

/-- `Events` from `src/midi_input_handler.rs`. -/
inductive Events where
  | Hit (h : UserHit)
deriving DecidableEq

/-- `InputConfigMidi` from `src/midi_input_handler.rs`; each Rust
`HashSet<u8>` is modelled as the list of its elements, queried only through
membership. -/
structure InputConfigMidi where
  kick : List Nat
  snare : List Nat
  closed_hi_hat : List Nat
  open_hi_hat : List Nat
  ride : List Nat
  crash : List Nat
  tom_1 : List Nat
  tom_2 : List Nat
  tom_3 : List Nat
  pedal_hihat : List Nat
deriving DecidableEq

/-- `InputConfigMidi::get_note_numbers`. -/
def InputConfigMidi.get_note_numbers (c : InputConfigMidi) (ins : Instrument) : List Nat :=
  match ins with
  | Instrument.ClosedHihat => c.closed_hi_hat
  | Instrument.Snare => c.snare
  | Instrument.Kick => c.kick
  | Instrument.OpenHihat => c.open_hi_hat
  | Instrument.Ride => c.ride
  | Instrument.Crash => c.crash
  | Instrument.Tom1 => c.tom_1
  | Instrument.Tom2 => c.tom_2
  | Instrument.Tom3 => c.tom_3
  | Instrument.PedalHiHat => c.pedal_hihat

/-- The `mpk_mini_mk_ii` map built in `get_midi_as_user_hits`. -/
def mpk_mini_mk_ii : InputConfigMidi :=
  { closed_hi_hat := [44, 48], snare := [45, 49], kick := [46, 50],
    open_hi_hat := [47, 51], ride := [], crash := [], tom_1 := [], tom_2 := [],
    tom_3 := [], pedal_hihat := [] }

/-- The `td17` map built in `get_midi_as_user_hits`. -/
def td17 : InputConfigMidi :=
  { closed_hi_hat := [42, 22], snare := [38, 40, 37], kick := [36],
    open_hi_hat := [46, 26], ride := [51, 53, 59], crash := [49, 55, 57, 52],
    tom_1 := [50, 48], tom_2 := [47, 45], tom_3 := [58, 43], pedal_hihat := [44] }

/-- The `td27` map built in `get_midi_as_user_hits` (also the fallback map). -/
def td27 : InputConfigMidi :=
  { closed_hi_hat := [42, 22], snare := [38, 40, 37], kick := [36],
    open_hi_hat := [46, 26], ride := [51, 53, 59], crash := [49, 55, 57, 52],
    tom_1 := [50, 48], tom_2 := [47, 45], tom_3 := [58, 43], pedal_hihat := [44] }

/-- The `alesis_nitro` map built in `get_midi_as_user_hits`. -/
def alesis_nitro : InputConfigMidi :=
  { closed_hi_hat := [42], snare := [38], kick := [36], open_hi_hat := [46, 23],
    ride := [], crash := [], tom_1 := [], tom_2 := [], tom_3 := [],
    pedal_hihat := [] }

/-- Substring containment on the character lists, modelling Rust
`str::contains`. -/
def charsIsInfixOf (needle : List Char) : List Char → Bool
  | [] => needle.isEmpty
  | c :: cs => needle.isPrefixOf (c :: cs) || charsIsInfixOf needle cs

/-- Rust `haystack.contains(needle)` for strings. -/
def strContains (needle : String) (haystack : String) : Bool :=
  charsIsInfixOf needle.data haystack.data

/-- The `match midi_input.get_device_name()` selection in
`get_midi_as_user_hits`: exact equality for the MPK controller, then substring
guards in source order, with `td27` as the fallback. -/
def selectInputConfigMidi (device_name : String) : InputConfigMidi :=
  if device_name = "MPK Mini Mk II" then mpk_mini_mk_ii
  else if strContains ("TD-17") device_name then td17
  else if strContains ("TD-27") device_name then td27
  else if strContains ("Nitro") device_name then alesis_nitro
  else td27

/-- The inner loop of `get_midi_as_user_hits`: for one pressed state, push one
`UserHit` per instrument (in the given order) whose note-number set contains
the state's note number. -/
def hitsForMidi (ic_midi : InputConfigMidi) (midi : MidiInputDataRaw) :
    List Instrument → List UserHit
  | [] => []
  | ins :: rest =>
      if (ic_midi.get_note_numbers ins).contains midi.note_number then
        { instrument := ins, raw_data := midi } :: hitsForMidi ic_midi midi rest
      else hitsForMidi ic_midi midi rest

/-- The outer loop of `get_midi_as_user_hits`: run the inner loop over
`ALL_INSTRUMENTS` for each pressed state, in order. -/
def hitsLoop (ic_midi : InputConfigMidi) : List MidiInputDataRaw → List UserHit
  | [] => []
  | midi :: rest => hitsForMidi ic_midi midi ALL_INSTRUMENTS ++ hitsLoop ic_midi rest

/-- `get_midi_as_user_hits` from `src/midi_input_handler.rs`: select the map
by device name, read the pressed buttons, and translate each to hits. -/
def get_midi_as_user_hits (midi_input : MidiInput) : List UserHit :=
  let ic_midi := selectInputConfigMidi midi_input.device_name
  let pressed_midi := (midi_input.get_pressed_buttons).1
  hitsLoop ic_midi pressed_midi

/-- `MidiInputHandler` from `src/midi_input_handler.rs`. -/
structure MidiInputHandler where
  midi_input : Option MidiInput
deriving DecidableEq

/-- `MidiInputHandler::process`: with a device, translate the pressed buttons
into `Hit` events and then flush; with no device, return no events. -/
def MidiInputHandler.process (h : MidiInputHandler) : List Events × MidiInputHandler :=
  match h.midi_input with
  | some midi_input =>
      let hits := get_midi_as_user_hits midi_input
      let events := hits.map Events.Hit
      (events, { midi_input := some midi_input.flush })
  | none => ([], h)

/-- `MIDI_FUNCTION_NAMES` from `src/midi.rs`: the 128-entry table of function
names for status bytes 128-255. -/
def MIDI_FUNCTION_NAMES : List String :=
  ["Chan 1 Note off", "Chan 2 Note off", "Chan 3 Note off", "Chan 4 Note off",
   "Chan 5 Note off", "Chan 6 Note off", "Chan 7 Note off", "Chan 8 Note off",
   "Chan 9 Note off", "Chan 10 Note off", "Chan 11 Note off", "Chan 12 Note off",
   "Chan 13 Note off", "Chan 14 Note off", "Chan 15 Note off", "Chan 16 Note off",
   "Chan 1 Note on", "Chan 2 Note on", "Chan 3 Note on", "Chan 4 Note on",
   "Chan 5 Note on", "Chan 6 Note on", "Chan 7 Note on", "Chan 8 Note on",
   "Chan 9 Note on", "Chan 10 Note on", "Chan 11 Note on", "Chan 12 Note on",
   "Chan 13 Note on", "Chan 14 Note on", "Chan 15 Note on", "Chan 16 Note on",
   "Chan 1 Polyphonic Aftertouch", "Chan 2 Polyphonic Aftertouch",
   "Chan 3 Polyphonic Aftertouch", "Chan 4 Polyphonic Aftertouch",
   "Chan 5 Polyphonic Aftertouch", "Chan 6 Polyphonic Aftertouch",
   "Chan 7 Polyphonic Aftertouch", "Chan 8 Polyphonic Aftertouch",
   "Chan 9 Polyphonic Aftertouch", "Chan 10 Polyphonic Aftertouch",
   "Chan 11 Polyphonic Aftertouch", "Chan 12 Polyphonic Aftertouch",
   "Chan 13 Polyphonic Aftertouch", "Chan 14 Polyphonic Aftertouch",
   "Chan 15 Polyphonic Aftertouch", "Chan 16 Polyphonic Aftertouch",
   "Chan 1 Control/Mode Change", "Chan 2 Control/Mode Change",
   "Chan 3 Control/Mode Change", "Chan 4 Control/Mode Change",
   "Chan 5 Control/Mode Change", "Chan 6 Control/Mode Change",
   "Chan 7 Control/Mode Change", "Chan 8 Control/Mode Change",
   "Chan 9 Control/Mode Change", "Chan 10 Control/Mode Change",
   "Chan 11 Control/Mode Change", "Chan 12 Control/Mode Change",
   "Chan 13 Control/Mode Change", "Chan 14 Control/Mode Change",
   "Chan 15 Control/Mode Change", "Chan 16 Control/Mode Change",
   "Chan 1 Program Change", "Chan 2 Program Change", "Chan 3 Program Change",
   "Chan 4 Program Change", "Chan 5 Program Change", "Chan 6 Program Change",
   "Chan 7 Program Change", "Chan 8 Program Change", "Chan 9 Program Change",
   "Chan 10 Program Change", "Chan 11 Program Change", "Chan 12 Program Change",
   "Chan 13 Program Change", "Chan 14 Program Change", "Chan 15 Program Change",
   "Chan 16 Program Change",
   "Chan 1 Channel Aftertouch", "Chan 2 Channel Aftertouch",
   "Chan 3 Channel Aftertouch", "Chan 4 Channel Aftertouch",
   "Chan 5 Channel Aftertouch", "Chan 6 Channel Aftertouch",
   "Chan 7 Channel Aftertouch", "Chan 8 Channel Aftertouch",
   "Chan 9 Channel Aftertouch", "Chan 10 Channel Aftertouch",
   "Chan 11 Channel Aftertouch", "Chan 12 Channel Aftertouch",
   "Chan 13 Channel Aftertouch", "Chan 14 Channel Aftertouch",
   "Chan 15 Channel Aftertouch", "Chan 16 Channel Aftertouch",
   "Chan 1 Pitch Bend Change", "Chan 2 Pitch Bend Change",
   "Chan 3 Pitch Bend Change", "Chan 4 Pitch Bend Change",
   "Chan 5 Pitch Bend Change", "Chan 6 Pitch Bend Change",
   "Chan 7 Pitch Bend Change", "Chan 8 Pitch Bend Change",
   "Chan 9 Pitch Bend Change", "Chan 10 Pitch Bend Change",
   "Chan 11 Pitch Bend Change", "Chan 12 Pitch Bend Change",
   "Chan 13 Pitch Bend Change", "Chan 14 Pitch Bend Change",
   "Chan 15 Pitch Bend Change", "Chan 16 Pitch Bend Change",
   "System Exclusive", "MIDI Time Code Qtr. Frame", "Song Position Pointer",
   "Song Select (Song #)", "Undefined (Reserved)", "Undefined (Reserved)",
   "Tune request", "End of SysEx (EOX)", "Timing clock", "Undefined (Reserved)",
   "Start", "Continue", "Stop", "Undefined (Reserved)", "Active Sensing",
   "System Reset"]

/-- Rust `usize` subtraction (`a - b`), which faults when it would underflow. -/
def usizeSub (a b : Nat) : Option Nat :=
  if a < b then none else some (a - b)

/-- The closure registered by `MidiInput::connect` in `src/midi.rs`, for one
incoming message.  Slice indexing `message[i]` is modelled by `List.get?` and
the `MIDI_FUNCTION_NAMES[message[0] as usize - 128]` lookup done for logging by
`usizeSub` plus `List.get?`; any Rust panic (short message, status byte below
128) is `none`.  On success the built `MidiInputDataRaw` is inserted into
`raw_inputs` under its note number. -/
def connectCallback (stamp : Nat) (non_midi_timestamp_ms : Nat) (message : List Nat)
    (raw_inputs : List (Nat × MidiInputDataRaw)) :
    Option (List (Nat × MidiInputDataRaw)) :=
  match message.get? 0, message.get? 1, message.get? 2 with
  | some midi_function, some note_number, some note_velocity =>
      match usizeSub midi_function 128 with
      | none => none
      | some idx =>
          match MIDI_FUNCTION_NAMES.get? idx with
          | none => none
          | some _ =>
              some (hmInsert note_number
                { note_number := note_number, timestamp := stamp,
                  non_midi_timestamp_ms := non_midi_timestamp_ms,
                  status := midi_function, note_velocity := note_velocity }
                raw_inputs)
  | _, _, _ => none

/-! ## Lemmas about the map primitives -/

theorem hmLookup_hmInsert_self (k : Nat) (v : MidiInputDataRaw)
    (m : List (Nat × MidiInputDataRaw)) :
    hmLookup k (hmInsert k v m) = some v := by
  induction m with
  | nil => simp [hmInsert, hmLookup]
  | cons e rest ih =>
      obtain ⟨k', v'⟩ := e
      by_cases h : k' = k
      · simp [hmInsert, h, hmLookup]
      · simp [hmInsert, h, hmLookup, ih]

theorem hmLookup_hmInsert_ne (a k : Nat) (v : MidiInputDataRaw)
    (m : List (Nat × MidiInputDataRaw)) (h : a ≠ k) :
    hmLookup a (hmInsert k v m) = hmLookup a m := by
  have hka : ¬ k = a := fun hh => h (Eq.symm hh)
  induction m with
  | nil => simp [hmInsert, hmLookup, hka]
  | cons e rest ih =>
      obtain ⟨k', v'⟩ := e
      by_cases hk : k' = k
      · subst hk
        simp [hmInsert, hmLookup, hka]
      · simp only [hmInsert, hk, if_false]
        by_cases ha : k' = a
        · simp [hmLookup, ha]
        · simp [hmLookup, ha, ih]

theorem mem_keys_hmInsert (a k : Nat) (v : MidiInputDataRaw)
    (m : List (Nat × MidiInputDataRaw)) :
    a ∈ (hmInsert k v m).map Prod.fst ↔ a = k ∨ a ∈ m.map Prod.fst := by
  induction m with
  | nil => simp [hmInsert]
  | cons e rest ih =>
      obtain ⟨k', v'⟩ := e
      by_cases hk : k' = k
      · subst hk
        simp [hmInsert]
      · simp [hmInsert, hk, ih]
        tauto

theorem hmInsert_keys_nodup (k : Nat) (v : MidiInputDataRaw)
    (m : List (Nat × MidiInputDataRaw)) (h : (m.map Prod.fst).Nodup) :
    ((hmInsert k v m).map Prod.fst).Nodup := by
  induction m with
  | nil => simp [hmInsert]
  | cons e rest ih =>
      obtain ⟨k', v'⟩ := e
      simp only [List.map_cons, List.nodup_cons] at h
      by_cases hk : k' = k
      · subst hk
        simpa [hmInsert] using h
      · simp only [hmInsert, hk, if_false, List.map_cons, List.nodup_cons]
        constructor
        · intro hmem
          rcases (mem_keys_hmInsert k' k v rest).mp hmem with h1 | h2
          · exact hk h1
          · exact h.1 h2
        · exact ih h.2

theorem count_keys_hmInsert_self (k : Nat) (v : MidiInputDataRaw)
    (m : List (Nat × MidiInputDataRaw)) (h : (m.map Prod.fst).Nodup) :
    ((hmInsert k v m).map Prod.fst).count k = 1 := by
  induction m with
  | nil => simp [hmInsert]
  | cons e rest ih =>
      obtain ⟨k', v'⟩ := e
      simp only [List.map_cons, List.nodup_cons] at h
      by_cases hk : k' = k
      · subst hk
        have h0 : (rest.map Prod.fst).count k' = 0 := List.count_eq_zero.mpr h.1
        simp [hmInsert, List.count_cons, h0]
      · have hkk : ¬ k = k' := fun hh => hk (Eq.symm hh)
        simp [hmInsert, hk, List.count_cons, ih h.2, hkk]

theorem hmLookup_eq_none_iff (k : Nat) (m : List (Nat × MidiInputDataRaw)) :
    hmLookup k m = none ↔ k ∉ m.map Prod.fst := by
  induction m with
  | nil => simp [hmLookup]
  | cons e rest ih =>
      obtain ⟨k', v'⟩ := e
      by_cases hk : k' = k
      · subst hk
        simp [hmLookup]
      · have hkk : ¬ k = k' := fun hh => hk (Eq.symm hh)
        simp [hmLookup, hk, ih, hkk]

theorem flushLoop_lookup_not_mem (k : Nat) (cur : List (Nat × MidiInputDataRaw))
    (h : k ∉ cur.map Prod.fst) :
    ∀ prev, hmLookup k (flushLoop prev cur) = hmLookup k prev := by
  induction cur with
  | nil => intro prev; rfl
  | cons e rest ih =>
      obtain ⟨k0, v0⟩ := e
      simp only [List.map_cons, List.mem_cons, not_or] at h
      intro prev
      rw [flushLoop, ih h.2, hmLookup_hmInsert_ne k k0 v0 prev h.1]

theorem flushLoop_lookup_mem (k : Nat) (v : MidiInputDataRaw)
    (cur : List (Nat × MidiInputDataRaw)) (hnd : (cur.map Prod.fst).Nodup)
    (h : hmLookup k cur = some v) :
    ∀ prev, hmLookup k (flushLoop prev cur) = some v := by
  induction cur with
  | nil => simp [hmLookup] at h
  | cons e rest ih =>
      obtain ⟨k0, v0⟩ := e
      simp only [List.map_cons, List.nodup_cons] at hnd
      intro prev
      rw [flushLoop]
      by_cases hk : k0 = k
      · subst hk
        simp only [hmLookup, eq_self_iff_true, if_true, Option.some.injEq] at h
        subst h
        rw [flushLoop_lookup_not_mem k0 rest hnd.1, hmLookup_hmInsert_self]
      · simp only [hmLookup, if_neg hk] at h
        exact ih hnd.2 h _

/-! ## Claim theorems -/

/-- C3: for every `MidiInputDataRaw`, `is_note_on` returns `true` if and only
if the status byte lies in the inclusive range 144 to 159. -/
theorem is_note_on_iff_status_in_range (d : MidiInputDataRaw) :
    d.is_note_on = true ↔ (144 ≤ d.status ∧ d.status ≤ 159) := by
  simp [MidiInputDataRaw.is_note_on]

/-- C8: `get_pressed_buttons` does not mutate the store, so two calls with no
intervening insert or flush return the same list of note-on states. -/
theorem get_pressed_buttons_read_only (m : MidiInput) :
    (m.get_pressed_buttons).2 = m ∧
      (((m.get_pressed_buttons).2).get_pressed_buttons).1 = (m.get_pressed_buttons).1 :=
  ⟨rfl, rfl⟩

/-- C5: with an empty current buffer, `process` returns an empty event
sequence and leaves the handler state (in particular `previous_raw_inputs`)
exactly unchanged. -/
theorem process_quiet_frame (name : String) (prev : List (Nat × MidiInputDataRaw)) :
    MidiInputHandler.process ⟨some ⟨name, [], prev⟩⟩ = ([], ⟨some ⟨name, [], prev⟩⟩) :=
  rfl

/-- C4: inserting two raw states with the same note number leaves exactly one
entry under that note number, bound to the most recently inserted state, and
keys stay unique (at most one entry per note number). -/
theorem insert_same_note_overwrites (m : List (Nat × MidiInputDataRaw))
    (v1 v2 : MidiInputDataRaw) (hk : v1.note_number = v2.note_number)
    (hnd : (m.map Prod.fst).Nodup) :
    hmLookup v2.note_number
        (hmInsert v2.note_number v2 (hmInsert v1.note_number v1 m)) = some v2 ∧
      ((hmInsert v2.note_number v2 (hmInsert v1.note_number v1 m)).map
          Prod.fst).count v2.note_number = 1 ∧
      ((hmInsert v2.note_number v2 (hmInsert v1.note_number v1 m)).map
          Prod.fst).Nodup :=
  ⟨hmLookup_hmInsert_self _ _ _,
   count_keys_hmInsert_self _ _ _ (hmInsert_keys_nodup _ _ _ hnd),
   hmInsert_keys_nodup _ _ _ (hmInsert_keys_nodup _ _ _ hnd)⟩

/-- Witness for C4 at a concrete pair of states sharing note number 36. -/
theorem insert_same_note_overwrites_witness :
    hmLookup 36 (hmInsert 36 ⟨36, 5, 6, 128, 0⟩ (hmInsert 36 ⟨36, 1, 2, 144, 100⟩ [])) =
        some ⟨36, 5, 6, 128, 0⟩ ∧
      ((hmInsert 36 ⟨36, 5, 6, 128, 0⟩ (hmInsert 36 ⟨36, 1, 2, 144, 100⟩ [])).map
          Prod.fst).count 36 = 1 ∧
      ((hmInsert 36 ⟨36, 5, 6, 128, 0⟩ (hmInsert 36 ⟨36, 1, 2, 144, 100⟩ [])).map
          Prod.fst).Nodup :=
  insert_same_note_overwrites [] ⟨36, 1, 2, 144, 100⟩ ⟨36, 5, 6, 128, 0⟩ rfl (by decide)

/-- C2: after `flush`, the current buffer is empty; every note number that was
in the current buffer is bound in `previous_raw_inputs` to its final value,
and entries for note numbers absent from the current buffer are retained. -/
theorem flush_moves_state (m : MidiInput)
    (hnd : (m.raw_inputs.map Prod.fst).Nodup) :
    m.flush.raw_inputs = [] ∧
      (∀ k v, hmLookup k m.raw_inputs = some v →
        hmLookup k m.flush.previous_raw_inputs = some v) ∧
      (∀ k, hmLookup k m.raw_inputs = none →
        hmLookup k m.flush.previous_raw_inputs = hmLookup k m.previous_raw_inputs) :=
  ⟨rfl,
   fun k v h => flushLoop_lookup_mem k v m.raw_inputs hnd h m.previous_raw_inputs,
   fun k h =>
     flushLoop_lookup_not_mem k m.raw_inputs
       ((hmLookup_eq_none_iff k m.raw_inputs).mp h) m.previous_raw_inputs⟩

/-- Witness for C2 at a concrete store. -/
theorem flush_moves_state_witness :
    (MidiInput.mk "dev" [(36, ⟨36, 1, 2, 144, 100⟩)]
        [(40, ⟨40, 0, 0, 128, 0⟩)]).flush.raw_inputs = [] ∧
      hmLookup 36 (MidiInput.mk "dev" [(36, ⟨36, 1, 2, 144, 100⟩)]
        [(40, ⟨40, 0, 0, 128, 0⟩)]).flush.previous_raw_inputs =
        some ⟨36, 1, 2, 144, 100⟩ ∧
      hmLookup 40 (MidiInput.mk "dev" [(36, ⟨36, 1, 2, 144, 100⟩)]
        [(40, ⟨40, 0, 0, 128, 0⟩)]).flush.previous_raw_inputs =
        hmLookup 40 [(40, ⟨40, 0, 0, 128, 0⟩)] :=
  ⟨(flush_moves_state (MidiInput.mk "dev" [(36, ⟨36, 1, 2, 144, 100⟩)]
      [(40, ⟨40, 0, 0, 128, 0⟩)]) (by decide)).1,
   (flush_moves_state (MidiInput.mk "dev" [(36, ⟨36, 1, 2, 144, 100⟩)]
      [(40, ⟨40, 0, 0, 128, 0⟩)]) (by decide)).2.1 36 ⟨36, 1, 2, 144, 100⟩ (by decide),
   (flush_moves_state (MidiInput.mk "dev" [(36, ⟨36, 1, 2, 144, 100⟩)]
      [(40, ⟨40, 0, 0, 128, 0⟩)]) (by decide)).2.2 40 (by decide)⟩

/-- C1: with device name "TD-17" and exactly the message `[144, 36, 100]`
inserted into the current buffer (as the connection callback does), `process`
returns exactly one `Hit` event with instrument `Kick` and raw note number 36,
and a subsequent `process` with no new messages returns an empty sequence. -/
theorem process_td17_end_to_end (ts tms : Nat) (prev : List (Nat × MidiInputDataRaw)) :
    connectCallback ts tms ([144, 36, 100]) [] =
        some [(36, ⟨36, ts, tms, 144, 100⟩)] ∧
      (MidiInputHandler.process
          ⟨some ⟨"TD-17", [(36, ⟨36, ts, tms, 144, 100⟩)], prev⟩⟩).1 =
        [Events.Hit ⟨Instrument.Kick, ⟨36, ts, tms, 144, 100⟩⟩] ∧
      (MidiInputHandler.process
          ((MidiInputHandler.process
              ⟨some ⟨"TD-17", [(36, ⟨36, ts, tms, 144, 100⟩)], prev⟩⟩).2)).1 = [] :=
  ⟨rfl, rfl, rfl⟩

theorem hitsForMidi_eq_filter_map (cfg : InputConfigMidi) (q : MidiInputDataRaw)
    (l : List Instrument) :
    hitsForMidi cfg q l =
      (l.filter (fun i => (cfg.get_note_numbers i).contains q.note_number)).map
        (fun i => { instrument := i, raw_data := q }) := by
  induction l with
  | nil => rfl
  | cons i rest ih =>
      simp only [hitsForMidi, List.filter_cons, ih]
      by_cases h : ((cfg.get_note_numbers i).contains q.note_number) = true
      · rw [if_pos h, if_pos h, List.map_cons]
      · rw [if_neg h, if_neg h]

theorem hitsLoop_eq_bind (cfg : InputConfigMidi) (ps : List MidiInputDataRaw) :
    hitsLoop cfg ps =
      ps.flatMap (fun q =>
        (ALL_INSTRUMENTS.filter
            (fun i => (cfg.get_note_numbers i).contains q.note_number)).map
          (fun i => { instrument := i, raw_data := q })) := by
  induction ps with
  | nil => rfl
  | cons q rest ih => simp [hitsLoop, ih, hitsForMidi_eq_filter_map]

/-- C6: when a pressed state's note number lies in the note-number sets of two
distinct instruments of the active map, the translation loop emits one hit per
matching instrument, so that state yields exactly two hits; in general one hit
is emitted per (pressed state, matching instrument) pair. -/
theorem multi_mapping_two_hits (cfg : InputConfigMidi) (p : MidiInputDataRaw)
    (i1 i2 : Instrument) (h12 : i1 ≠ i2)
    (hfil : ALL_INSTRUMENTS.filter
        (fun i => (cfg.get_note_numbers i).contains p.note_number) = [i1, i2]) :
    hitsForMidi cfg p ALL_INSTRUMENTS =
        [{ instrument := i1, raw_data := p }, { instrument := i2, raw_data := p }] ∧
      ∀ ps : List MidiInputDataRaw,
        hitsLoop cfg ps =
          ps.flatMap (fun q =>
            (ALL_INSTRUMENTS.filter
                (fun i => (cfg.get_note_numbers i).contains q.note_number)).map
              (fun i => { instrument := i, raw_data := q })) :=
  ⟨by rw [hitsForMidi_eq_filter_map, hfil]; rfl,
   fun ps => hitsLoop_eq_bind cfg ps⟩

/-- A deliberately misconfigured map for the C6 witness: `td17` with note 36
added to `tom_3` as well as `kick`. -/
def overlappingConfig : InputConfigMidi :=
  { td17 with tom_3 := [36, 58, 43] }

/-- Witness for C6: under `overlappingConfig`, note 36 matches both `Tom3` and
`Kick`, and one pressed state yields exactly those two hits. -/
theorem multi_mapping_two_hits_witness :
    hitsForMidi overlappingConfig ⟨36, 0, 0, 144, 100⟩ ALL_INSTRUMENTS =
        [{ instrument := Instrument.Tom3, raw_data := ⟨36, 0, 0, 144, 100⟩ },
         { instrument := Instrument.Kick, raw_data := ⟨36, 0, 0, 144, 100⟩ }] ∧
      hitsLoop overlappingConfig [⟨36, 0, 0, 144, 100⟩] =
        [{ instrument := Instrument.Tom3, raw_data := ⟨36, 0, 0, 144, 100⟩ },
         { instrument := Instrument.Kick, raw_data := ⟨36, 0, 0, 144, 100⟩ }] :=
  ⟨(multi_mapping_two_hits overlappingConfig ⟨36, 0, 0, 144, 100⟩
      Instrument.Tom3 Instrument.Kick (by decide) (by decide)).1,
   by
     rw [(multi_mapping_two_hits overlappingConfig ⟨36, 0, 0, 144, 100⟩
        Instrument.Tom3 Instrument.Kick (by decide) (by decide)).2
        [⟨36, 0, 0, 144, 100⟩]]
     rfl⟩

/-- C7: a device name that is not exactly "MPK Mini Mk II" and contains none
of the substrings "TD-17", "TD-27", "Nitro" selects the fallback map `td27`. -/
theorem select_config_fallback (name : String)
    (h1 : name ≠ "MPK Mini Mk II")
    (h2 : strContains ("TD-17") name = false)
    (h3 : strContains ("TD-27") name = false)
    (h4 : strContains ("Nitro") name = false) :
    selectInputConfigMidi name = td27 := by
  simp [selectInputConfigMidi, h1, h2, h3, h4]

/-- Witness for C7 at the device name "Unknown Drum Kit XYZ". -/
theorem select_config_fallback_witness :
    selectInputConfigMidi "Unknown Drum Kit XYZ" = td27 :=
  select_config_fallback "Unknown Drum Kit XYZ" (by decide) (by decide) (by decide)
    (by decide)

/-- C9: for every incoming message of fewer than 3 bytes, the connection
callback's extraction of status/note/velocity indexes past the end of the
message and faults; no length validation precedes the indexing. -/
theorem short_message_faults (stamp now : Nat) (message : List Nat)
    (store : List (Nat × MidiInputDataRaw)) (h : message.length < 3) :
    connectCallback stamp now message store = none := by
  rcases message with _ | ⟨a, _ | ⟨b, _ | ⟨c, rest⟩⟩⟩
  · rfl
  · rfl
  · rfl
  · simp only [List.length_cons] at h
    omega

/-- Witness for C9 at the one-byte message `[144]`. -/
theorem short_message_faults_witness :
    ([144] : List Nat).length < 3 ∧ connectCallback 0 0 ([144]) [] = none :=
  ⟨by decide, short_message_faults 0 0 ([144]) [] (by decide)⟩

/-- C10: for a well-formed 3-byte message whose status byte is below 128 the
callback faults on the `MIDI_FUNCTION_NAMES[status - 128]` lookup, and for
status bytes in 128-255 (the `u8` precondition `status >= 128`) it succeeds. -/
theorem callback_status_precondition (stamp now f n vel : Nat) (rest : List Nat)
    (store : List (Nat × MidiInputDataRaw)) :
    (f < 128 → connectCallback stamp now (f :: n :: vel :: rest) store = none) ∧
      (128 ≤ f → f ≤ 255 →
        (connectCallback stamp now (f :: n :: vel :: rest) store).isSome = true) := by
  constructor
  · intro h
    simp [connectCallback, usizeSub, h]
  · intro h1 h2
    have h3 : usizeSub f 128 = some (f - 128) := by
      unfold usizeSub
      rw [if_neg (by omega)]
    have hlen : MIDI_FUNCTION_NAMES.length = 128 := by rfl
    cases hgs : MIDI_FUNCTION_NAMES.get? (f - 128) with
    | none =>
        have := List.get?_eq_none.mp hgs
        rw [hlen] at this
        omega
    | some s =>
        rw [List.get?_eq_getElem?] at hgs
        simp [connectCallback, h3, hgs]

/-- Witness for C10: a status byte of 100 faults, a status byte of 144
succeeds. -/
theorem callback_status_precondition_witness :
    connectCallback 0 0 (100 :: 36 :: 100 :: []) [] = none ∧
      (connectCallback 0 0 (144 :: 36 :: 100 :: []) []).isSome = true :=
  ⟨(callback_status_precondition 0 0 100 36 100 [] []).1 (by decide),
   (callback_status_precondition 0 0 144 36 100 [] []).2 (by decide) (by decide)⟩
